import Mathlib

/-!
Verification of the comprexor library (src/lib.rs): a gzip-compressed tar
archiver.  The Rust source is shallowly embedded below: pure conversions
become Lean functions, and the staged compress/extract pipelines become
state-passing functions over an explicit environment that records the
filesystem facts and the success/failure of each I/O step, in the exact
order the source performs them.  Rust `f64` arithmetic is modelled by an
inductive with finite (exact rational), infinity and NaN cases; `f64`
division of two nonnegative integers is modelled exactly.
-/

namespace Comprexor

/-- The compression level enum from src/lib.rs lines 15-26:
`None | Fast | Default | Maximum | Custom(u32)`. -/
inductive CompressionLevel where
  | none
  | fast
  | default
  | maximum
  | custom (level : Nat)
deriving DecidableEq, Repr

/-- Rust `impl From<&CompressionLevel> for u32` (src/lib.rs lines 34-45). -/
def u32_from_ref (value : CompressionLevel) : Nat :=
  match value with
  | .none => 0
  | .fast => 1
  | .default => 6
  | .maximum => 9
  | .custom level => level

/-- Rust `impl From<CompressionLevel> for u32` (src/lib.rs lines 47-58). -/
def u32_from_val (value : CompressionLevel) : Nat :=
  match value with
  | .none => 0
  | .fast => 1
  | .default => 6
  | .maximum => 9
  | .custom level => level

/-- The flate2 `Compression` parameter: a wrapper around a `u32` level.
`Compression::none() = 0`, `fast() = 1`, `default() = 6`, `best() = 9`,
`new(n) = n` (flate2 documented constants). -/
structure Compression where
  level : Nat
deriving DecidableEq, Repr

def Compression.noneC : Compression := ⟨0⟩
def Compression.fastC : Compression := ⟨1⟩
def Compression.defaultC : Compression := ⟨6⟩
def Compression.bestC : Compression := ⟨9⟩
def Compression.newC (n : Nat) : Compression := ⟨n⟩

/-- The error string built by `format!("Invalid compression level: {level},
must be between 0 and 9")` in src/lib.rs lines 72-74 and 95-97. -/
def invalidLevelMsg (level : Nat) : String :=
  "Invalid compression level: " ++ toString level ++ ", must be between 0 and 9"

/-- Rust `impl TryFrom<&CompressionLevel> for Compression` (src/lib.rs lines 83-104). -/
def tryFrom_ref (value : CompressionLevel) : Except String Compression :=
  match value with
  | .none => .ok Compression.noneC
  | .fast => .ok Compression.fastC
  | .default => .ok Compression.defaultC
  | .maximum => .ok Compression.bestC
  | .custom level =>
    if level > 9 then
      .error (invalidLevelMsg level)
    else
      .ok (Compression.newC level)

/-- Rust `impl TryFrom<CompressionLevel> for Compression` (src/lib.rs lines 60-81). -/
def tryFrom_val (value : CompressionLevel) : Except String Compression :=
  match value with
  | .none => .ok Compression.noneC
  | .fast => .ok Compression.fastC
  | .default => .ok Compression.defaultC
  | .maximum => .ok Compression.bestC
  | .custom level =>
    if level > 9 then
      .error (invalidLevelMsg level)
    else
      .ok (Compression.newC level)

/-- Model of Rust `f64` values produced by this library: an exact rational
for finite values, plus the IEEE special values that arise from division. -/
inductive F64 where
  | finite (q : ℚ)
  | inf
  | negInf
  | nan
deriving DecidableEq, Repr

/-- IEEE-754 division `a as f64 / b as f64` for nonnegative integers `a`,
`b`, modelled exactly: `a / 0` is NaN when `a = 0` and +infinity when
`a > 0`; otherwise the exact quotient. -/
def fdiv (a b : Nat) : F64 :=
  if b = 0 then
    if a = 0 then .nan else .inf
  else
    .finite ((a : ℚ) / (b : ℚ))

/-- The `ArchiveInfo` struct (src/lib.rs lines 106-111); the `ratio` field
is modelled as `ratioF : F64`. -/
structure ArchiveInfo where
  input_size : Nat
  output_size : Nat
  ratioF : F64
deriving DecidableEq, Repr

def padZeros (s : String) (d : Nat) : String :=
  if s.length < d then String.mk (List.replicate (d - s.length) '0') ++ s else s

/-- Fixed-point rendering of a finite value with `d` decimals, modelling
Rust `format!` with a precision specifier on a finite `f64` (rounding to
nearest at the last decimal). -/
def fmtFixed (q : ℚ) (d : Nat) : String :=
  let scaled : ℤ := round (q * ((10 : ℚ) ^ d))
  if d = 0 then toString scaled
  else
    let ip : ℤ := scaled.tdiv ((10 : ℤ) ^ d)
    let fp : Nat := (scaled.tmod ((10 : ℤ) ^ d)).natAbs
    (if scaled < 0 ∧ ip = 0 then "-" else "") ++ toString ip ++ "." ++ padZeros (toString fp) d

/-- Rust `ArchiveInfo::ratio_formatted` (src/lib.rs lines 190-197):
`format!("{:.decimals$}", self.ratio)`.  Rust formats the special values
as "inf", "-inf" and "NaN" regardless of the precision; the function is
total and never panics. -/
def ratio_formatted (a : ArchiveInfo) (num_decimals : Nat) : String :=
  match a.ratioF with
  | .finite q => fmtFixed q num_decimals
  | .inf => "inf"
  | .negInf => "-inf"
  | .nan => "NaN"

/-- Model of `std::io::Error` values that the pipelines produce: the
not-found error raised by `fs::metadata`/`File::open` on a missing path,
the `ErrorKind::Other` errors the source builds with explicit messages,
and an injected failure of an I/O step, tagged with the step's name. -/
inductive IoErr where
  | notFound
  | otherMsg (msg : String)
  | ioFail (step : String)
deriving DecidableEq, Repr

/-- What a symlink's target resolves to. -/
inductive ResolvedKind where
  | file
  | dir
  | special
deriving DecidableEq, Repr, Fintype

/-- The filesystem object at the compressor's input path. -/
inductive InputObject where
  | regular
  | directory
  | symlinkTo (k : ResolvedKind)
  | symlinkBroken
  | special
  | missing
deriving DecidableEq, Repr, Fintype

/-- The fields of `std::fs::Metadata` the source consults. -/
structure Metadata where
  is_dir : Bool
  is_file : Bool
  is_symlink : Bool
deriving DecidableEq, Repr, Fintype

/-- Rust `std::fs::metadata`: traverses symbolic links to query the destination
(Rust std documentation), so a symlink is reported with its target's kind
and `Metadata::is_symlink` is always false for metadata obtained this way;
a missing path or broken symlink yields a not-found error. -/
def metadataOf : InputObject → Except IoErr Metadata
  | .regular => .ok ⟨false, true, false⟩
  | .directory => .ok ⟨true, false, false⟩
  | .symlinkTo .file => .ok ⟨false, true, false⟩
  | .symlinkTo .dir => .ok ⟨true, false, false⟩
  | .symlinkTo .special => .ok ⟨false, false, false⟩
  | .symlinkBroken => .error .notFound
  | .special => .ok ⟨false, false, false⟩
  | .missing => .error .notFound

/-- Splits a character list on the path separator. -/
def splitSlash : List Char → List (List Char)
  | [] => [[]]
  | c :: cs =>
    if c = '/' then [] :: splitSlash cs
    else
      match splitSlash cs with
      | [] => [[c]]
      | r :: rs => (c :: r) :: rs

/-- Rust `std::path::Path::file_name`: the final normal component of the path
(ignoring separators and `.` components); `none` for the root, the empty
path, or a path ending in `..`. -/
def fileNameOf (p : String) : Option String :=
  let comps := ((splitSlash p.data).map String.mk).filter (fun c => c ≠ "" && c ≠ ".")
  match comps.getLast? with
  | Option.none => Option.none
  | some c => if c = ".." then Option.none else some c

/-- An entry written to the staging tar: `append_dir_all name input`
records the whole subtree under root name `name`; `append_file name file`
records one file entry under `name`. -/
inductive TarEntry where
  | subtree (rootName : String)
  | singleFile (name : String)
deriving DecidableEq, Repr

/-- Observable filesystem effects of one compress call. -/
structure FsState where
  /-- staging (temporary) files this call has created -/
  stagingCreated : Nat
  /-- staging files currently existing -/
  stagingLive : Nat
  /-- Rust `File::create(self.output)` has run (creating or truncating the file
  at the output path) -/
  outputCreated : Bool
  /-- bytes currently present at the output path (0 right after create) -/
  outputLen : Nat
  /-- entries appended to the staging tar -/
  entries : List TarEntry
deriving DecidableEq, Repr

def FsState.init : FsState :=
  ⟨0, 0, false, 0, []⟩

/-- Dropping a temp-file handle removes the staging file (tempfile crate
`Drop` semantics; removal errors on this path are ignored by Rust). -/
def dropStaging (s : FsState) : FsState :=
  { s with stagingLive := s.stagingLive - 1 }

/-- The environment of one compress call: the filesystem facts it observes
and the success of each fallible I/O step, in source order. -/
structure CompressEnv where
  /-- what sits at the input path -/
  inputObj : InputObject
  /-- the raw input path string -/
  inputPath : String
  /-- byte length of the staging tar after `tar.finish()` -/
  tarSize : Nat
  /-- byte length of the gzip output after `encoder.finish()` -/
  gzSize : Nat
  /-- bytes left at the output path when a copy/finish step fails midway -/
  partialLen : Nat
  /-- Rust `NamedTempFile::new()` succeeds -/
  tmpCreateOk : Bool
  /-- first `tmpfile.reopen()` succeeds -/
  reopen1Ok : Bool
  /-- Rust `File::open(self.input)` succeeds (single-file branch) -/
  openInputOk : Bool
  /-- the `tar.append_dir_all` / `tar.append_file` write succeeds -/
  appendOk : Bool
  /-- Rust `tar.finish()` succeeds -/
  finishOk : Bool
  /-- Rust `tmpfile.seek(SeekFrom::Start(0))` succeeds -/
  seekOk : Bool
  /-- second `tmpfile.reopen()` succeeds -/
  reopen2Ok : Bool
  /-- Rust `input_file.metadata()` on the staging file succeeds -/
  inMetaOk : Bool
  /-- Rust `File::create(self.output)` succeeds -/
  createOutOk : Bool
  /-- Rust `copy(input_file, &mut encoder)` succeeds -/
  copyOk : Bool
  /-- Rust `encoder.finish()` succeeds -/
  encFinishOk : Bool
  /-- Rust `fs::metadata(self.output)` succeeds -/
  outMetaOk : Bool
  /-- Rust `tmpfile.close()` (explicit staging removal) succeeds -/
  closeOk : Bool
deriving DecidableEq, Repr

/-- Rust `Compressor::compress_internal` (src/lib.rs lines 373-396), given the
staging file (its length is `env.tarSize`).  Steps in source order: read
the staging file's metadata for `input_size`; `File::create(self.output)`;
convert `level` via `TryFrom<&CompressionLevel>` (mapping the message into
an `ErrorKind::Other` error); stream-copy through the gzip encoder;
`encoder.finish()`; read the output file's metadata for `output_size`;
build `ArchiveInfo` with `ratio = input_size as f64 / output_size as f64`. -/
def compress_internal (env : CompressEnv) (level : CompressionLevel) (s : FsState) :
    Except IoErr ArchiveInfo × FsState :=
  if !env.inMetaOk then (.error (.ioFail "staging metadata"), s)
  else
    let input_size := env.tarSize
    if !env.createOutOk then (.error (.ioFail "create output"), s)
    else
      let sA := { s with outputCreated := true, outputLen := 0 }
      match tryFrom_ref level with
      | .error msg => (.error (.otherMsg msg), sA)
      | .ok _ =>
        if !env.copyOk then (.error (.ioFail "copy"), { sA with outputLen := env.partialLen })
        else
          if !env.encFinishOk then
            (.error (.ioFail "encoder finish"), { sA with outputLen := env.partialLen })
          else
            let sB := { sA with outputLen := env.gzSize }
            if !env.outMetaOk then (.error (.ioFail "output metadata"), sB)
            else
              let output_size := sB.outputLen
              (.ok ⟨input_size, output_size, fdiv input_size output_size⟩, sB)

/-- The tail of `compress_with_tar` after the tar entries are appended:
`tar.finish()`, seek to start, reopen, `compress_internal`, then
`tmpfile.close()` which removes the staging file and surfaces a removal
failure (on failure the file is not removed). -/
def afterTar (env : CompressEnv) (level : CompressionLevel) (s : FsState) :
    Except IoErr ArchiveInfo × FsState :=
  if !env.finishOk then (.error (.ioFail "tar finish"), dropStaging s)
  else
    if !env.seekOk then (.error (.ioFail "seek"), dropStaging s)
    else
      if !env.reopen2Ok then (.error (.ioFail "reopen"), dropStaging s)
      else
        match compress_internal env level s with
        | (.error e, s1) => (.error e, dropStaging s1)
        | (.ok info, s1) =>
          if !env.closeOk then (.error (.ioFail "close"), s1)
          else (.ok info, dropStaging s1)

/-- Rust `Compressor::compress_with_tar` (src/lib.rs lines 330-371).  Creates
the named staging file, classifies the input via `fs::metadata`:
a directory is appended via `append_dir_all` under the input path's
`file_name` (failing with a path-resolution error when there is none;
the `to_str` conversion always succeeds in this model since paths are
`String`s), a file or symlink is appended via `append_file` under the raw
input path, and anything else fails with
"Input is neither a file, symlink or a directory".  Every early `?` return
drops the staging file. -/
def compress_with_tar (env : CompressEnv) (level : CompressionLevel) :
    Except IoErr ArchiveInfo × FsState :=
  if !env.tmpCreateOk then (.error (.ioFail "tempfile create"), FsState.init)
  else
    let s1 : FsState := { FsState.init with stagingCreated := 1, stagingLive := 1 }
    if !env.reopen1Ok then (.error (.ioFail "reopen"), dropStaging s1)
    else
      match metadataOf env.inputObj with
      | .error e => (.error e, dropStaging s1)
      | .ok md =>
        if md.is_dir then
          match fileNameOf env.inputPath with
          | Option.none =>
            (.error (.otherMsg "Could not get file name from input"), dropStaging s1)
          | some folder_name =>
            if !env.appendOk then (.error (.ioFail "append dir"), dropStaging s1)
            else
              afterTar env level { s1 with entries := [.subtree folder_name] }
        else
          if md.is_file || md.is_symlink then
            if !env.openInputOk then (.error (.ioFail "open input"), dropStaging s1)
            else
              if !env.appendOk then (.error (.ioFail "append file"), dropStaging s1)
              else
                afterTar env level { s1 with entries := [.singleFile env.inputPath] }
          else
            (.error (.otherMsg "Input is neither a file, symlink or a directory"),
              dropStaging s1)

/-- Rust `Compressor::compress` (src/lib.rs lines 321-328) just delegates to
`compress_with_tar` on `level.as_ref()`. -/
def compress (env : CompressEnv) (level : CompressionLevel) :
    Except IoErr ArchiveInfo × FsState :=
  compress_with_tar env level

/-- The environment of one extract call. -/
structure ExtractEnv where
  /-- the input path exists (a missing input makes open/metadata fail) -/
  inputExists : Bool
  /-- byte length of the compressed input file -/
  inputLen : Nat
  /-- byte length of the decompressed tar stream in the staging file -/
  gunzipLen : Nat
  /-- Rust `File::open(self.input)` succeeds -/
  openOk : Bool
  /-- Rust `fs::metadata(self.input)` succeeds -/
  metaOk : Bool
  /-- Rust `tempfile::tempfile()` succeeds -/
  tmpOk : Bool
  /-- Rust `copy(decoder, tmpfile)` succeeds (gzip decode + write) -/
  copyOk : Bool
  /-- Rust `tmpfile.seek(SeekFrom::Start(0))` succeeds -/
  seekOk : Bool
  /-- Rust `tmpfile.metadata()` succeeds -/
  tmpMetaOk : Bool
  /-- Rust `archive.unpack(self.output)` succeeds -/
  unpackOk : Bool
deriving DecidableEq, Repr

/-- Observable effects of one extract call: its staging file counters. -/
structure ExState where
  stagingCreated : Nat
  stagingLive : Nat
deriving DecidableEq, Repr

/-- Rust `Extractor::extract_internal` (src/lib.rs lines 260-278).  Opens the
input, reads its length as `input_size`, creates an anonymous staging
file, copies the gzip-decoded bytes into it, seeks to its start, reads its
length as `output_size`, unpacks the tar into the output directory, and
returns `ArchiveInfo` with `ratio = output_size as f64 / input_size as
f64`.  The staging file handle is dropped (removing the file) on every
exit path after its creation. -/
def extract_internal (env : ExtractEnv) : Except IoErr ArchiveInfo × ExState :=
  let s0 : ExState := ⟨0, 0⟩
  if !env.inputExists then (.error .notFound, s0)
  else
    if !env.openOk then (.error (.ioFail "open input"), s0)
    else
      if !env.metaOk then (.error (.ioFail "input metadata"), s0)
      else
        let input_size := env.inputLen
        if !env.tmpOk then (.error (.ioFail "tempfile create"), s0)
        else
          let sdone : ExState := ⟨1, 0⟩
          if !env.copyOk then (.error (.ioFail "copy"), sdone)
          else
            if !env.seekOk then (.error (.ioFail "seek"), sdone)
            else
              if !env.tmpMetaOk then (.error (.ioFail "staging metadata"), sdone)
              else
                let output_size := env.gunzipLen
                if !env.unpackOk then (.error (.ioFail "unpack"), sdone)
                else (.ok ⟨input_size, output_size, fdiv output_size input_size⟩, sdone)

/-- Rust `Extractor::extract` (src/lib.rs lines 255-258) just delegates to
`extract_internal`. -/
def extract (env : ExtractEnv) : Except IoErr ArchiveInfo × ExState :=
  extract_internal env

/-- A fully healthy compress environment: the input path "a/b" names a
directory whose staged tar is 1024 bytes, gzip output is 40 bytes, and
every I/O step succeeds. -/
def envDirOk : CompressEnv where
  inputObj := .directory
  inputPath := "a/b"
  tarSize := 1024
  gzSize := 40
  partialLen := 0
  tmpCreateOk := true
  reopen1Ok := true
  openInputOk := true
  appendOk := true
  finishOk := true
  seekOk := true
  reopen2Ok := true
  inMetaOk := true
  createOutOk := true
  copyOk := true
  encFinishOk := true
  outMetaOk := true
  closeOk := true

/-- A fully healthy extract environment: 40 compressed bytes decompress to
a 1024-byte staging tar and every I/O step succeeds. -/
def envExtOk : ExtractEnv where
  inputExists := true
  inputLen := 40
  gunzipLen := 1024
  openOk := true
  metaOk := true
  tmpOk := true
  copyOk := true
  seekOk := true
  tmpMetaOk := true
  unpackOk := true

/-- Everything a successful compress call guarantees: the stats fields come
from the staged tar size and the final output size with the ratio the exact
quotient of the two, the output file was created, exactly one staging file
was created and none survives, the explicit staging removal succeeded, and
the level conversion succeeded. -/
theorem compress_internal_ok (env : CompressEnv) (level : CompressionLevel)
    (s : FsState) (info : ArchiveInfo) (s1 : FsState)
    (h : compress_internal env level s = (.ok info, s1)) :
    info = ⟨env.tarSize, env.gzSize, fdiv env.tarSize env.gzSize⟩ ∧
    s1 = { s with outputCreated := true, outputLen := env.gzSize } ∧
    ∃ c, tryFrom_ref level = .ok c := by
  unfold compress_internal at h
  repeat' split at h
  all_goals simp_all

/-- A successful run of the tail of `compress_with_tar`: the stats come out
of `compress_internal`, the staging file is removed by the explicit close,
and the close succeeded. -/
theorem afterTar_ok (env : CompressEnv) (level : CompressionLevel)
    (s : FsState) (info : ArchiveInfo) (s1 : FsState)
    (h : afterTar env level s = (.ok info, s1)) :
    info = ⟨env.tarSize, env.gzSize, fdiv env.tarSize env.gzSize⟩ ∧
    s1 = dropStaging { s with outputCreated := true, outputLen := env.gzSize } ∧
    env.closeOk = true ∧
    ∃ c, tryFrom_ref level = .ok c := by
  unfold afterTar at h
  split at h
  · exact absurd h (by simp)
  split at h
  · exact absurd h (by simp)
  split at h
  · exact absurd h (by simp)
  split at h
  next e s0 heq => exact absurd h (by simp)
  next i0 s0 heq =>
    split at h
    next hclose => exact absurd h (by simp)
    next hclose =>
      obtain ⟨hi, hs, hc⟩ := compress_internal_ok env level s i0 s0 heq
      injection h with h1 h2
      injection h1 with h1
      subst h1
      subst h2
      refine ⟨hi, ?_, ?_, hc⟩
      · rw [hs]
      · revert hclose
        cases env.closeOk <;> simp

set_option linter.unnecessarySeqFocus false

/-- From a successful metadata answer whose `is_dir` is set, the input
object is a directory or a symlink resolving to one. -/
theorem metadataOf_dir (o : InputObject) (md : Metadata)
    (h : metadataOf o = .ok md) (hd : md.is_dir = true) :
    o = .directory ∨ o = .symlinkTo .dir := by
  obtain ⟨d, f, l⟩ := md
  cases o <;> simp [metadataOf] at h <;> simp_all
  rename_i k
  cases k <;> simp [metadataOf] at h <;> simp_all

/-- From a successful metadata answer whose `is_dir` is unset but `is_file
|| is_symlink` holds, the input object is a regular file or a symlink
resolving to one (via `fs::metadata`, `is_symlink` is always false). -/
theorem metadataOf_file (o : InputObject) (md : Metadata)
    (h : metadataOf o = .ok md) (hd : ¬md.is_dir = true)
    (hf : (md.is_file || md.is_symlink) = true) :
    o = .regular ∨ o = .symlinkTo .file := by
  obtain ⟨d, f, l⟩ := md
  cases o <;> simp [metadataOf] at h <;> try simp_all
  rename_i k
  cases k <;> simp [metadataOf] at h <;> simp_all

/-- Everything a successful compress call establishes: the stats fields are
the staged tar size and the final output size with the ratio their exact
quotient, the output file was created and holds the compressed bytes,
exactly one staging file was created and none survives, the explicit
staging removal succeeded, the level conversion succeeded, and the tar
entries are a basename-rooted subtree (directory input) or one entry named
by the raw input path (regular-file input). -/
theorem compress_ok_cases (env : CompressEnv) (level : CompressionLevel)
    (info : ArchiveInfo) (s : FsState) (h : compress env level = (.ok info, s)) :
    info = ⟨env.tarSize, env.gzSize, fdiv env.tarSize env.gzSize⟩ ∧
    env.closeOk = true ∧
    (∃ c, tryFrom_ref level = .ok c) ∧
    ∃ es, s = ⟨1, 0, true, env.gzSize, es⟩ ∧
      (((env.inputObj = .directory ∨ env.inputObj = .symlinkTo .dir) ∧
         ∃ name, fileNameOf env.inputPath = some name ∧ es = [.subtree name]) ∨
       ((env.inputObj = .regular ∨ env.inputObj = .symlinkTo .file) ∧
         es = [.singleFile env.inputPath])) := by
  simp only [compress, compress_with_tar] at h
  split at h
  · exact absurd h (by simp)
  split at h
  · exact absurd h (by simp)
  split at h
  next e heq => exact absurd h (by simp)
  next md hmd =>
    split at h
    next hdir =>
      split at h
      next hfn => exact absurd h (by simp)
      next fname hfn =>
        split at h
        · exact absurd h (by simp)
        obtain ⟨hi, hs, hcl, hc⟩ := afterTar_ok env level _ info s h
        refine ⟨hi, hcl, hc, [.subtree fname], ?_,
          Or.inl ⟨metadataOf_dir _ md hmd hdir, fname, hfn, rfl⟩⟩
        rw [hs]
        simp [dropStaging, FsState.init]
    next hdir =>
      split at h
      next hfl =>
        split at h
        · exact absurd h (by simp)
        split at h
        · exact absurd h (by simp)
        obtain ⟨hi, hs, hcl, hc⟩ := afterTar_ok env level _ info s h
        refine ⟨hi, hcl, hc, [.singleFile env.inputPath], ?_,
          Or.inr ⟨metadataOf_file _ md hmd hdir hfl, rfl⟩⟩
        rw [hs]
        simp [dropStaging, FsState.init]
      next hfl => exact absurd h (by simp)

/-- Rust `compress_internal` never touches the staging-file counters. -/
theorem compress_internal_state (env : CompressEnv) (level : CompressionLevel)
    (s : FsState) :
    (compress_internal env level s).2.stagingCreated = s.stagingCreated ∧
    (compress_internal env level s).2.stagingLive = s.stagingLive := by
  unfold compress_internal
  repeat' split
  all_goals simp_all

/-- Every exit of the `compress_with_tar` tail either removes the staging
file (explicitly or by drop) or keeps it only because the explicit removal
itself failed, which is surfaced as the close error. -/
theorem afterTar_state (env : CompressEnv) (level : CompressionLevel) (s : FsState) :
    (afterTar env level s).2.stagingCreated = s.stagingCreated ∧
    ((afterTar env level s).2.stagingLive = s.stagingLive - 1 ∨
      ((afterTar env level s).2.stagingLive = s.stagingLive ∧
        (afterTar env level s).1 = .error (.ioFail "close"))) := by
  obtain ⟨hc, hl⟩ := compress_internal_state env level s
  unfold afterTar
  repeat' split
  all_goals simp_all [dropStaging]

/-- `afterTar_state` specialised to the states reached in
`compress_with_tar`, which carry exactly one live staging file. -/
theorem afterTar_state_one (env : CompressEnv) (level : CompressionLevel)
    (s : FsState) (h1 : s.stagingCreated = 1) (h2 : s.stagingLive = 1) :
    (afterTar env level s).2.stagingCreated = 1 ∧
    ((afterTar env level s).2.stagingLive ≠ 0 →
      (afterTar env level s).1 = .error (.ioFail "close")) := by
  obtain ⟨hc, hl⟩ := afterTar_state env level s
  rw [h1] at hc
  rw [h2] at hl
  refine ⟨hc, ?_⟩
  rcases hl with hl | ⟨hl, he⟩ <;> intro hne
  · exact absurd hl hne
  · exact he

/-- Staging-file accounting of a whole compress call, on every path: at
most one staging file is ever created, exactly one as soon as the initial
temp-file creation succeeds, and the only way a staging file survives the
call is that its explicit removal failed, in which case the call returns
the close error. -/
theorem compress_state_all (env : CompressEnv) (level : CompressionLevel) :
    (compress env level).2.stagingCreated ≤ 1 ∧
    (env.tmpCreateOk = true → (compress env level).2.stagingCreated = 1) ∧
    ((compress env level).2.stagingLive ≠ 0 →
      (compress env level).1 = .error (.ioFail "close")) := by
  simp only [compress, compress_with_tar]
  split
  · simp_all [FsState.init]
  split
  · simp_all [dropStaging, FsState.init]
  split
  next e heq => simp_all [dropStaging, FsState.init]
  next md hmd =>
    split
    · split
      · simp_all [dropStaging, FsState.init]
      · split
        · simp_all [dropStaging, FsState.init]
        · refine ⟨?_, fun _ => ?_, ?_⟩
          · exact le_of_eq (afterTar_state_one env level _ rfl rfl).1
          · exact (afterTar_state_one env level _ rfl rfl).1
          · exact (afterTar_state_one env level _ rfl rfl).2
    · split
      · split
        · simp_all [dropStaging, FsState.init]
        · split
          · simp_all [dropStaging, FsState.init]
          · refine ⟨?_, fun _ => ?_, ?_⟩
            · exact le_of_eq (afterTar_state_one env level _ rfl rfl).1
            · exact (afterTar_state_one env level _ rfl rfl).1
            · exact (afterTar_state_one env level _ rfl rfl).2
      · simp_all [dropStaging, FsState.init]

/-- Staging-file accounting of a whole extract call, on every path: at most
one staging file is created (exactly one once the steps before its creation
succeed), and none survives the call. -/
theorem extract_state_all (env : ExtractEnv) :
    (extract env).2.stagingCreated ≤ 1 ∧
    (extract env).2.stagingLive = 0 ∧
    (env.inputExists = true → env.openOk = true → env.metaOk = true →
      env.tmpOk = true → (extract env).2.stagingCreated = 1) := by
  unfold extract extract_internal
  repeat' split
  all_goals simp_all

/-- A compress environment identical to `envDirOk` except that the input
path names a regular file whose staged tar is empty and whose gzip output
is 20 bytes. -/
def envZero : CompressEnv :=
  { envDirOk with inputObj := .regular, tarSize := 0, gzSize := 20 }

/-- Claim C1 (counterexample): with input a regular file and every I/O step
healthy, `compress` with level `Custom(10)` propagates the
`InvalidCompressionLevel` failure, but a file HAS been created (truncated)
at the output path: `File::create(self.output)` runs before the level is
validated, refuting "no file has been created or modified at
output_path". -/
theorem c1_counterexample :
    (compress { envDirOk with inputObj := .regular } (.custom 10)).1 =
      .error (.otherMsg (invalidLevelMsg 10)) ∧
    (compress { envDirOk with inputObj := .regular } (.custom 10)).2.outputCreated = true := by
  exact ⟨rfl, rfl⟩

/-- Claim C1 (amended): an invalid level `Custom(n)`, `n > 9`, always makes
`compress` fail — it can never return `Ok` — and on an otherwise healthy
run over a regular-file input the failure carries the
`InvalidCompressionLevel` message, with the destination file already
created and truncated to empty (0 bytes written) by the time validation
runs. -/
theorem c1_invalid_level_after_create (env : CompressEnv) (n : Nat) (h9 : 9 < n)
    (hf : env.tmpCreateOk = true ∧ env.reopen1Ok = true ∧ env.openInputOk = true ∧
      env.appendOk = true ∧ env.finishOk = true ∧ env.seekOk = true ∧
      env.reopen2Ok = true ∧ env.inMetaOk = true ∧ env.createOutOk = true)
    (hobj : env.inputObj = .regular) :
    compress env (.custom n) =
      (.error (.otherMsg (invalidLevelMsg n)),
        ⟨1, 0, true, 0, [.singleFile env.inputPath]⟩) ∧
    ∀ env2 : CompressEnv, ∀ info s, compress env2 (.custom n) ≠ (.ok info, s) := by
  obtain ⟨f1, f2, f3, f4, f5, f6, f7, f8, f9⟩ := hf
  constructor
  · simp [compress, compress_with_tar, afterTar, compress_internal, metadataOf,
      tryFrom_ref, hobj, f1, f2, f3, f4, f5, f6, f7, f8, f9, h9, dropStaging,
      FsState.init]
  · intro env2 info s hcontra
    obtain ⟨-, -, ⟨c, hc⟩, -⟩ := compress_ok_cases env2 (.custom n) info s hcontra
    simp [tryFrom_ref, h9] at hc

/-- Claim C1 (witness) at `n = 10` on a healthy regular-file run. -/
theorem c1_witness :
    compress { envDirOk with inputObj := .regular } (.custom 10) =
      (.error (.otherMsg (invalidLevelMsg 10)),
        ⟨1, 0, true, 0, [.singleFile "a/b"]⟩) :=
  (c1_invalid_level_after_create { envDirOk with inputObj := .regular } 10
    (by decide) ⟨rfl, rfl, rfl, rfl, rfl, rfl, rfl, rfl, rfl⟩ rfl).1

/-- Claim C2 (counterexample): a nonexistent input path does NOT fail with
the `UnsupportedInputKind` message — `fs::metadata` fails first with the
not-found I/O error (no output file is created either way). -/
theorem c2_counterexample :
    (compress { envDirOk with inputObj := .missing } .default).1 = .error .notFound ∧
    (compress { envDirOk with inputObj := .missing } .default).1 ≠
      .error (.otherMsg "Input is neither a file, symlink or a directory") ∧
    (compress { envDirOk with inputObj := .missing } .default).2.outputCreated = false := by
  refine ⟨rfl, ?_, rfl⟩
  intro hx
  have h0 : (compress { envDirOk with inputObj := .missing } .default).1 =
      .error .notFound := rfl
  rw [h0] at hx
  simp at hx

/-- Claim C2 (amended): a device/socket/FIFO input (directly or through a
symlink) fails with the "Input is neither a file, symlink or a directory"
error and no file is created at the output path; a nonexistent path or a
broken symlink instead fails with the not-found I/O error from
`fs::metadata`, likewise without creating the output file. -/
theorem c2_unsupported_input (env : CompressEnv) (level : CompressionLevel)
    (h1 : env.tmpCreateOk = true) (h2 : env.reopen1Ok = true) :
    ((env.inputObj = .special ∨ env.inputObj = .symlinkTo .special) →
      compress env level =
        (.error (.otherMsg "Input is neither a file, symlink or a directory"),
          ⟨1, 0, false, 0, []⟩)) ∧
    ((env.inputObj = .missing ∨ env.inputObj = .symlinkBroken) →
      compress env level = (.error .notFound, ⟨1, 0, false, 0, []⟩)) := by
  constructor
  · rintro (ho | ho) <;>
      simp [compress, compress_with_tar, metadataOf, ho, h1, h2, dropStaging,
        FsState.init]
  · rintro (ho | ho) <;>
      simp [compress, compress_with_tar, metadataOf, ho, h1, h2, dropStaging,
        FsState.init]

/-- Claim C2 (witness): a device-file input on an otherwise healthy run. -/
theorem c2_witness :
    compress { envDirOk with inputObj := .special } .default =
      (.error (.otherMsg "Input is neither a file, symlink or a directory"),
        ⟨1, 0, false, 0, []⟩) :=
  (c2_unsupported_input { envDirOk with inputObj := .special } .default rfl rfl).1
    (Or.inl rfl)

/-- Claim C3: converting a `CompressionLevel` to the codec parameter fails
exactly when the resolved integer exceeds 9, with the error message built
from the offending value, and otherwise succeeds with exactly the resolved
integer (no clamping); named variants resolve to 0, 1, 6, 9 and hence
always succeed. -/
theorem c3_tryFrom_validation (level : CompressionLevel) :
    (9 < u32_from_ref level →
      tryFrom_ref level = .error (invalidLevelMsg (u32_from_ref level))) ∧
    (u32_from_ref level ≤ 9 → tryFrom_ref level = .ok ⟨u32_from_ref level⟩) := by
  cases level with
  | custom n =>
    constructor <;> intro h <;> simp only [u32_from_ref] at h
    · simp [tryFrom_ref, u32_from_ref, h]
    · simp [tryFrom_ref, u32_from_ref, Compression.newC, Nat.not_lt.mpr h]
  | none => exact ⟨fun h => by simp [u32_from_ref] at h, fun _ => rfl⟩
  | fast => exact ⟨fun h => by simp [u32_from_ref] at h, fun _ => rfl⟩
  | default => exact ⟨fun h => by simp [u32_from_ref] at h, fun _ => rfl⟩
  | maximum => exact ⟨fun h => by simp [u32_from_ref] at h, fun _ => rfl⟩

/-- Claim C3 (witness) at `Custom(12)` (failure) and `Custom(3)`
(success). -/
theorem c3_witness :
    tryFrom_ref (.custom 12) = .error (invalidLevelMsg 12) ∧
    tryFrom_ref (.custom 3) = .ok ⟨3⟩ :=
  ⟨(c3_tryFrom_validation (.custom 12)).1 (by decide),
    (c3_tryFrom_validation (.custom 3)).2 (by decide)⟩

/-- Claim C4 (counterexample): a symbolic-link input pointing to a
directory is archived through the DIRECTORY branch (`fs::metadata` follows
the link), so the archive holds a basename-rooted subtree, not a single
entry named by the raw input path — refuting "for a ... symbolic-link
input, the archive contains a single entry named by the raw input_path
string". -/
theorem c4_counterexample :
    (compress { envDirOk with inputObj := .symlinkTo .dir } .default).1.isOk = true ∧
    (compress { envDirOk with inputObj := .symlinkTo .dir } .default).2.entries =
      [.subtree "b"] ∧
    (compress { envDirOk with inputObj := .symlinkTo .dir } .default).2.entries ≠
      [.singleFile "a/b"] := by
  exact ⟨rfl, rfl, by decide⟩

/-- Claim C4 (amended): entry naming follows the RESOLVED input kind: for a
directory input — or a symlink resolving to a directory — the archive's
root entry is the last path segment of the input path with the subtree
under it; for a regular-file input — or a symlink resolving to a regular
file — the archive holds a single entry named by the raw input path
string. -/
theorem c4_entry_naming (env : CompressEnv) (level : CompressionLevel)
    (info : ArchiveInfo) (s : FsState) (h : compress env level = (.ok info, s)) :
    ((env.inputObj = .directory ∨ env.inputObj = .symlinkTo .dir) →
      ∃ name, fileNameOf env.inputPath = some name ∧ s.entries = [.subtree name]) ∧
    ((env.inputObj = .regular ∨ env.inputObj = .symlinkTo .file) →
      s.entries = [.singleFile env.inputPath]) := by
  obtain ⟨-, -, -, es, hs, hcase⟩ := compress_ok_cases env level info s h
  subst hs
  rcases hcase with ⟨hk, name, hn, he⟩ | ⟨hk, he⟩
  · subst he
    refine ⟨fun _ => ⟨name, hn, rfl⟩, fun hreg => ?_⟩
    rcases hk with h1 | h1 <;> rcases hreg with h2 | h2 <;> rw [h1] at h2 <;> simp at h2
  · subst he
    refine ⟨fun hdir => ?_, fun _ => rfl⟩
    rcases hk with h1 | h1 <;> rcases hdir with h2 | h2 <;> rw [h1] at h2 <;> simp at h2

/-- Claim C4 (witness): a healthy directory compress stages the subtree
under the basename "b" of the input path "a/b". -/
theorem c4_witness :
    ∃ name, fileNameOf envDirOk.inputPath = some name ∧
      (⟨1, 0, true, 40, [TarEntry.subtree "b"]⟩ : FsState).entries =
        [TarEntry.subtree name] :=
  (c4_entry_naming envDirOk .default ⟨1024, 40, fdiv 1024 40⟩
    ⟨1, 0, true, 40, [.subtree "b"]⟩ rfl).1 (Or.inl rfl)

/-- Claim C5: every successful compress call returns stats whose ratio is
exactly `input_size / output_size` (the model's exact f64 division, no
rounding), where `input_size` is the staged uncompressed tar's byte length
and `output_size` is the final compressed output file's byte length. -/
theorem c5_compress_ratio_exact (env : CompressEnv) (level : CompressionLevel)
    (info : ArchiveInfo) (s : FsState) (h : compress env level = (.ok info, s)) :
    info.input_size = env.tarSize ∧
    info.output_size = env.gzSize ∧
    s.outputLen = env.gzSize ∧
    info.ratioF = fdiv info.input_size info.output_size := by
  obtain ⟨hi, -, -, es, hs, -⟩ := compress_ok_cases env level info s h
  subst hi
  subst hs
  exact ⟨rfl, rfl, rfl, rfl⟩

/-- Claim C5 (witness) on a healthy directory compress. -/
theorem c5_witness :
    (⟨1024, 40, fdiv 1024 40⟩ : ArchiveInfo).input_size = envDirOk.tarSize ∧
    (⟨1024, 40, fdiv 1024 40⟩ : ArchiveInfo).output_size = envDirOk.gzSize ∧
    (⟨1, 0, true, 40, [TarEntry.subtree "b"]⟩ : FsState).outputLen = envDirOk.gzSize ∧
    (⟨1024, 40, fdiv 1024 40⟩ : ArchiveInfo).ratioF =
      fdiv (⟨1024, 40, fdiv 1024 40⟩ : ArchiveInfo).input_size
        (⟨1024, 40, fdiv 1024 40⟩ : ArchiveInfo).output_size :=
  c5_compress_ratio_exact envDirOk .default ⟨1024, 40, fdiv 1024 40⟩
    ⟨1, 0, true, 40, [.subtree "b"]⟩ rfl

/-- Claim C6: every successful extract call returns stats whose ratio is
exactly `output_size / input_size` (the inverse orientation from
compression), where `input_size` is the compressed input file's byte
length and `output_size` is the decompressed tar stream's byte length
measured from the staging file. -/
theorem c6_extract_ratio (env : ExtractEnv) (info : ArchiveInfo) (s : ExState)
    (h : extract env = (.ok info, s)) :
    info.input_size = env.inputLen ∧
    info.output_size = env.gunzipLen ∧
    info.ratioF = fdiv info.output_size info.input_size := by
  unfold extract extract_internal at h
  repeat' split at h
  all_goals injection h with h1 h2
  all_goals first
  | (injection h1
     done)
  | (injection h1 with h1
     subst h1
     subst h2
     exact ⟨rfl, rfl, rfl⟩)

/-- Claim C6 (witness) on a healthy extract. -/
theorem c6_witness :
    (⟨40, 1024, fdiv 1024 40⟩ : ArchiveInfo).input_size = envExtOk.inputLen ∧
    (⟨40, 1024, fdiv 1024 40⟩ : ArchiveInfo).output_size = envExtOk.gunzipLen ∧
    (⟨40, 1024, fdiv 1024 40⟩ : ArchiveInfo).ratioF =
      fdiv (⟨40, 1024, fdiv 1024 40⟩ : ArchiveInfo).output_size
        (⟨40, 1024, fdiv 1024 40⟩ : ArchiveInfo).input_size :=
  c6_extract_ratio envExtOk ⟨40, 1024, fdiv 1024 40⟩ ⟨1, 0⟩ rfl

/-- Claim C7: each compress/extract call creates at most one staging file —
exactly one once the temp-file creation step is reached and succeeds — and
the staging file never survives the call except when its explicit removal
itself failed on an otherwise-successful compress, in which case the call
surfaces the close error instead of succeeding (a compress can never
return `Ok` when the staging-file removal failed). -/
theorem c7_staging_lifecycle (env : CompressEnv) (level : CompressionLevel)
    (eenv : ExtractEnv) :
    (compress env level).2.stagingCreated ≤ 1 ∧
    (env.tmpCreateOk = true → (compress env level).2.stagingCreated = 1) ∧
    ((compress env level).2.stagingLive ≠ 0 →
      (compress env level).1 = .error (.ioFail "close")) ∧
    (env.closeOk = false → ∀ info s, compress env level ≠ (.ok info, s)) ∧
    (extract eenv).2.stagingCreated ≤ 1 ∧
    (extract eenv).2.stagingLive = 0 ∧
    (eenv.inputExists = true → eenv.openOk = true → eenv.metaOk = true →
      eenv.tmpOk = true → (extract eenv).2.stagingCreated = 1) := by
  obtain ⟨hc1, hc2, hc3⟩ := compress_state_all env level
  obtain ⟨he1, he2, he3⟩ := extract_state_all eenv
  refine ⟨hc1, hc2, hc3, ?_, he1, he2, he3⟩
  intro hclose info s hcontra
  obtain ⟨-, hcl, -, -⟩ := compress_ok_cases env level info s hcontra
  rw [hclose] at hcl
  cases hcl

/-- Claim C7 (witness): healthy runs create exactly one staging file and
leave none; a compress whose staging removal fails returns the close
error. -/
theorem c7_witness :
    (compress envDirOk .default).2.stagingCreated = 1 ∧
    (compress { envDirOk with closeOk := false } .default).1 =
      .error (.ioFail "close") ∧
    (extract envExtOk).2.stagingCreated = 1 ∧
    (extract envExtOk).2.stagingLive = 0 := by
  have h1 := c7_staging_lifecycle envDirOk .default envExtOk
  have h2 := c7_staging_lifecycle { envDirOk with closeOk := false } .default envExtOk
  exact ⟨h1.2.1 rfl, h2.2.2.1 (by decide), h1.2.2.2.2.2.2 rfl rfl rfl rfl,
    h1.2.2.2.2.2.1⟩

/-- Claim C8 (counterexample): a zero-byte staged input with a nonempty
(20-byte) output yields ratio 0.0 — a finite value, neither positive
infinity nor NaN — refuting "a zero-byte input ... yields an ArchiveStats
whose ratio is positive infinity or NaN". -/
theorem c8_counterexample :
    compress envZero .default =
      (.ok ⟨0, 20, F64.finite 0⟩, ⟨1, 0, true, 20, [.singleFile "a/b"]⟩) ∧
    F64.finite 0 ≠ F64.inf ∧ F64.finite 0 ≠ F64.nan := by
  have h0 : fdiv 0 20 = F64.finite 0 := by norm_num [fdiv]
  refine ⟨?_, by decide, by decide⟩
  have h1 : compress envZero .default =
      (.ok ⟨0, 20, fdiv 0 20⟩, ⟨1, 0, true, 20, [.singleFile "a/b"]⟩) := rfl
  rw [h1, h0]

/-- Claim C8 (amended): the ratio is always the raw division passed through
with no special-casing; a zero-size staged input yields ratio 0.0 when the
output is nonempty and NaN when the output is also empty, while positive
infinity arises only for a nonempty input with a zero-size output; and
`ratio_formatted` is total, returning "inf"/"NaN" for the non-finite
values at any number of decimals, never panicking. -/
theorem c8_degenerate_ratio (env : CompressEnv) (level : CompressionLevel)
    (info : ArchiveInfo) (s : FsState) (h : compress env level = (.ok info, s)) :
    info.ratioF = fdiv info.input_size info.output_size ∧
    (info.input_size = 0 → info.output_size = 0 → info.ratioF = .nan) ∧
    (info.input_size = 0 → 0 < info.output_size → info.ratioF = .finite 0) ∧
    (0 < info.input_size → info.output_size = 0 → info.ratioF = .inf) ∧
    ∀ d, ratio_formatted ⟨info.input_size, info.output_size, .inf⟩ d = "inf" ∧
      ratio_formatted ⟨info.input_size, info.output_size, .nan⟩ d = "NaN" := by
  obtain ⟨hi, -, -, es, hs, -⟩ := compress_ok_cases env level info s h
  subst hi
  refine ⟨rfl, ?_, ?_, ?_, fun d => ⟨rfl, rfl⟩⟩
  · intro h1 h2
    simp only [ArchiveInfo.input_size] at h1
    simp only [ArchiveInfo.output_size] at h2
    simp [fdiv, h1, h2]
  · intro h1 h2
    simp only [ArchiveInfo.input_size] at h1
    simp only [ArchiveInfo.output_size] at h2
    simp [fdiv, h1, Nat.pos_iff_ne_zero.mp h2]
  · intro h1 h2
    simp only [ArchiveInfo.input_size] at h1
    simp only [ArchiveInfo.output_size] at h2
    simp [fdiv, h2, Nat.pos_iff_ne_zero.mp h1]

/-- Claim C8 (witness): the zero-input/20-byte-output run has ratio 0.0,
and the formatter renders the special values at 5 decimals. -/
theorem c8_witness :
    (⟨0, 20, fdiv 0 20⟩ : ArchiveInfo).ratioF = F64.finite 0 ∧
    ratio_formatted ⟨0, 20, F64.inf⟩ 5 = "inf" ∧
    ratio_formatted ⟨0, 20, F64.nan⟩ 5 = "NaN" := by
  have hx := c8_degenerate_ratio envZero .default ⟨0, 20, fdiv 0 20⟩
    ⟨1, 0, true, 20, [.singleFile "a/b"]⟩ rfl
  exact ⟨hx.2.2.1 rfl (by decide), (hx.2.2.2.2 5).1, (hx.2.2.2.2 5).2⟩

/-- Claim C9: both integer conversions are total (they are Lean functions)
and map None to 0, Fast to 1, Default to 6, Maximum to 9, and Custom(n) to
n verbatim. -/
theorem c9_u32_conversion_total :
    u32_from_ref .none = 0 ∧ u32_from_ref .fast = 1 ∧ u32_from_ref .default = 6 ∧
    u32_from_ref .maximum = 9 ∧ (∀ n, u32_from_ref (.custom n) = n) ∧
    u32_from_val .none = 0 ∧ u32_from_val .fast = 1 ∧ u32_from_val .default = 6 ∧
    u32_from_val .maximum = 9 ∧ ∀ n, u32_from_val (.custom n) = n :=
  ⟨rfl, rfl, rfl, rfl, fun _ => rfl, rfl, rfl, rfl, rfl, fun _ => rfl⟩

/-- Claim C10: the by-value and by-reference conversions agree on every
level: the integer conversions coincide, and the codec-parameter
conversions return the same value or fail with the same error message. -/
theorem c10_byval_byref_agree (v : CompressionLevel) :
    u32_from_val v = u32_from_ref v ∧ tryFrom_val v = tryFrom_ref v := by
  cases v <;> exact ⟨rfl, rfl⟩

end Comprexor
